import Mathlib

/-!
Verification of the `visual-range` horizon-distance calculator
(`src/main.rs`) against its natural-language specification.

Shallow embedding: the program's `f64` inputs and the fixed physical
constants are all exactly representable decimal literals, so heights,
validation and the unit-normalisation stage are embedded over `ℚ`
(exact, decidable); the geometry solver (`acos`, `sqrt`) is embedded
over `ℝ` via `Real.arccos` and `Real.sqrt`.  Output formatting is
modelled as the record of the four printed quantities; the process
outcome (exit code, stdout, stderr lines) is modelled explicitly.
-/

namespace VisualRange

/-- The parsed command line (struct `Args` in `src/main.rs`):
observer height (required), subject height (optional), metric flag. -/
structure Args where
  observer : ℚ
  subject : Option ℚ
  metric : Bool
deriving DecidableEq, Repr

/-- The error enum of `src/main.rs`: `Error::Observer(f64)` and
`Error::Subject(f64)`, each carrying the offending value. -/
inductive Error where
  | observer (v : ℚ)
  | subject (v : ℚ)
deriving DecidableEq, Repr

/-- `Args::validate`: reject `observer <= 0.0`; reject a supplied
`subject <= 0.0`; otherwise `Ok(())`. -/
def validate (a : Args) : Except Error Unit :=
  if a.observer ≤ 0 then .error (.observer a.observer)
  else
    match a.subject with
    | some s => if s ≤ 0 then .error (.subject s) else .ok ()
    | none => .ok ()

/-- `const CONVERSION_FACTOR_FEET_TO_METERS: f64 = 1.0 / 3.28084` -/
def CONVERSION_FACTOR_FEET_TO_METERS : ℚ := 1 / 3.28084

/-- `const CONVERSION_FACTOR_METERS_TO_MILES: f64 = 0.00062137 / 1.0` -/
def CONVERSION_FACTOR_METERS_TO_MILES : ℚ := 0.00062137 / 1

/-- `const CONVERSION_FACTOR_METERS_TO_KM: f64 = 1.0 / 1000.0` -/
def CONVERSION_FACTOR_METERS_TO_KM : ℚ := 1 / 1000

/-- `const EARTH_RADIUS: f64 = 6371009.0` -/
def EARTH_RADIUS : ℚ := 6371009

/-- The `effective_observer_height` binding in `run`: in metric mode
`observer + subject.unwrap_or_default() + EARTH_RADIUS`, otherwise
`(observer + subject.unwrap_or_default()) * FEET_TO_METERS + EARTH_RADIUS`. -/
def effectiveObserverHeight (a : Args) : ℚ :=
  if a.metric then a.observer + a.subject.getD 0 + EARTH_RADIUS
  else (a.observer + a.subject.getD 0) * CONVERSION_FACTOR_FEET_TO_METERS + EARTH_RADIUS

/-- `let alpha = (EARTH_RADIUS / effective_observer_height).acos()` -/
noncomputable def alpha (e : ℝ) : ℝ := Real.arccos ((EARTH_RADIUS : ℝ) / e)

/-- `let slant_range_meters = ((e * e) - (EARTH_RADIUS * EARTH_RADIUS)).sqrt()` -/
noncomputable def slant_range_meters (e : ℝ) : ℝ :=
  Real.sqrt (e * e - (EARTH_RADIUS : ℝ) * (EARTH_RADIUS : ℝ))

/-- `let ground_distance_meters = alpha * EARTH_RADIUS` -/
noncomputable def ground_distance_meters (e : ℝ) : ℝ := alpha e * (EARTH_RADIUS : ℝ)

/-- `let ground_distance_km = ground_distance_meters * CONVERSION_FACTOR_METERS_TO_KM` -/
noncomputable def ground_distance_km (e : ℝ) : ℝ :=
  ground_distance_meters e * (CONVERSION_FACTOR_METERS_TO_KM : ℝ)

/-- `let ground_distance_miles = ground_distance_meters * CONVERSION_FACTOR_METERS_TO_MILES` -/
noncomputable def ground_distance_miles (e : ℝ) : ℝ :=
  ground_distance_meters e * (CONVERSION_FACTOR_METERS_TO_MILES : ℝ)

/-- The four quantities the final `println!` renders, in print order:
ground distance in meters, miles and kilometers, then slant range in
meters.  Equal records render to identical text. -/
structure Output where
  ground_m : ℝ
  ground_mi : ℝ
  ground_km : ℝ
  slant_m : ℝ

/-- The computation `run` performs after `validate` succeeds. -/
noncomputable def compute (a : Args) : Output :=
  let e : ℝ := (effectiveObserverHeight a : ℝ)
  ⟨ground_distance_meters e, ground_distance_miles e, ground_distance_km e,
    slant_range_meters e⟩

/-- `fn run(args: &Args) -> Result<()>`: validate, then compute and print.
The printed record is returned as the success value. -/
noncomputable def run (a : Args) : Except Error Output :=
  match validate a with
  | .error e => .error e
  | .ok _ => .ok (compute a)

/-- The `Display` rendering of an `Error` (the `#[error(...)]` templates). -/
def renderError : Error → String
  | .observer v => "observer must have positive non-zero height: " ++ toString v
  | .subject v => "subject must have positive non-zero height: " ++ toString v

/-- Observable outcome of one process invocation: exit code, what was
printed to stdout (the computed record, or nothing), and the lines
written to stderr. -/
structure MainOutcome where
  exitCode : Nat
  stdout : Option Output
  stderrLines : List String

/-- `fn main()`: on `Err(e)`, print `e` to stderr and exit with code 1;
on success the record is printed to stdout and the process exits 0. -/
noncomputable def main (a : Args) : MainOutcome :=
  match run a with
  | .ok out => ⟨0, some out, []⟩
  | .error e => ⟨1, none, [renderError e]⟩

/-- Unit-normalizer transcribed from the SPEC's words (§4.2): sum the
heights (absent subject is 0), in metric mode add Earth radius
directly, otherwise multiply by the `1 / 3.28084` feet-to-meters
factor first, then add Earth radius `6371009`. -/
def effectiveHeightSpec (observer : ℚ) (subject : Option ℚ) (metric : Bool) : ℚ :=
  if metric then observer + subject.getD 0 + 6371009
  else (observer + subject.getD 0) * (1 / 3.28084) + 6371009

/-- Solver transcribed from the SPEC's words (§4.3):
`alpha = arccos(earth_radius / effective_observer_height)`. -/
noncomputable def alphaSpec (e : ℝ) : ℝ := Real.arccos (6371009 / e)

/-- Solver transcribed from the SPEC's words (§4.3):
`slant_range_meters = sqrt(e^2 - earth_radius^2)`. -/
noncomputable def slantSpec (e : ℝ) : ℝ := Real.sqrt (e ^ 2 - 6371009 ^ 2)

/-- Solver transcribed from the SPEC's words (§4.3):
`ground_distance_meters = alpha * earth_radius`. -/
noncomputable def groundSpec (e : ℝ) : ℝ := alphaSpec e * 6371009

/-- The regression fixture of C9: observer 30000, subject omitted,
default imperial mode. -/
def fixture : Args := ⟨30000, none, false⟩

section Helpers

lemma feet_factor_pos : 0 < CONVERSION_FACTOR_FEET_TO_METERS := by
  norm_num [CONVERSION_FACTOR_FEET_TO_METERS]

lemma earth_radius_pos : 0 < EARTH_RADIUS := by norm_num [EARTH_RADIUS]

/-- `validate` succeeds exactly when the observer height is strictly
positive and any supplied subject height is strictly positive. -/
lemma validate_ok_iff (a : Args) :
    validate a = .ok () ↔ 0 < a.observer ∧ ∀ s, a.subject = some s → 0 < s := by
  rcases a with ⟨o, sub, m⟩
  rcases sub with _ | s
  all_goals simp only [validate]
  · split_ifs with ho
    · simp only [reduceCtorEq, false_iff, not_and]
      intro h
      exact absurd ho (not_le.2 h)
    · simp only [true_and]
      constructor
      · intro _
        exact ⟨not_le.1 ho, by simp⟩
      · intro _
        trivial
  · split_ifs with ho hsv
    · simp only [reduceCtorEq, false_iff, not_and]
      intro h
      exact absurd ho (not_le.2 h)
    · simp only [reduceCtorEq, false_iff, not_and]
      intro _ h
      exact absurd hsv (not_le.2 (h s rfl))
    · constructor
      · intro _
        refine ⟨not_le.1 ho, ?_⟩
        intro t ht
        cases ht
        exact not_le.1 hsv
      · intro _
        rfl

/-- A validated argument set has nonnegative effective subject height. -/
lemma subject_getD_nonneg (a : Args) (h : validate a = .ok ()) :
    0 ≤ a.subject.getD 0 := by
  rcases (validate_ok_iff a).1 h with ⟨-, hsub⟩
  rcases hs : a.subject with _ | s
  · simp
  · simpa using (hsub s hs).le

/-- The effective observer height of any validated input strictly
exceeds the Earth radius. -/
lemma earth_radius_lt_eff (a : Args) (h : validate a = .ok ()) :
    EARTH_RADIUS < effectiveObserverHeight a := by
  rcases (validate_ok_iff a).1 h with ⟨ho, -⟩
  have hs := subject_getD_nonneg a h
  have hsum : 0 < a.observer + a.subject.getD 0 := by linarith
  unfold effectiveObserverHeight
  rcases a.metric with _ | _
  · simp only [Bool.false_eq_true, if_false]
    nlinarith [feet_factor_pos]
  · simp only [if_true]
    linarith

/-- The effective observer height is strictly monotone in the observer
height (subject and unit mode fixed). -/
lemma eff_strict_mono (s : Option ℚ) (m : Bool) {h₁ h₂ : ℚ} (h : h₁ < h₂) :
    effectiveObserverHeight ⟨h₁, s, m⟩ < effectiveObserverHeight ⟨h₂, s, m⟩ := by
  unfold effectiveObserverHeight
  rcases m with _ | _
  · simp only [Bool.false_eq_true, if_false]
    have := feet_factor_pos
    nlinarith
  · simp only [if_true]
    linarith

lemma earth_radius_real : ((EARTH_RADIUS : ℚ) : ℝ) = 6371009 := by
  norm_num [EARTH_RADIUS]

lemma earth_radius_real_pos : (0 : ℝ) < ((EARTH_RADIUS : ℚ) : ℝ) := by
  rw [earth_radius_real]
  norm_num

/-- `alpha` is strictly increasing on heights at least the Earth radius. -/
lemma alpha_strict_mono {e₁ e₂ : ℝ} (h1 : ((EARTH_RADIUS : ℚ) : ℝ) ≤ e₁)
    (h12 : e₁ < e₂) : alpha e₁ < alpha e₂ := by
  have hR := earth_radius_real_pos
  have he₁ : 0 < e₁ := lt_of_lt_of_le hR h1
  have he₂ : 0 < e₂ := he₁.trans h12
  have hx : ((EARTH_RADIUS : ℚ) : ℝ) / e₂ < ((EARTH_RADIUS : ℚ) : ℝ) / e₁ :=
    div_lt_div_of_pos_left hR he₁ h12
  have hub₁ : ((EARTH_RADIUS : ℚ) : ℝ) / e₁ ≤ 1 := (div_le_one he₁).2 h1
  have hub₂ : ((EARTH_RADIUS : ℚ) : ℝ) / e₂ ≤ 1 := (div_le_one he₂).2 (h1.trans h12.le)
  have hlb₂ : (0 : ℝ) ≤ ((EARTH_RADIUS : ℚ) : ℝ) / e₂ := by positivity
  have hlb₁ : (0 : ℝ) ≤ ((EARTH_RADIUS : ℚ) : ℝ) / e₁ := by positivity
  exact Real.strictAntiOn_arccos ⟨by linarith, hub₂⟩ ⟨by linarith, hub₁⟩ hx

/-- `ground_distance_meters` is strictly increasing on heights at least
the Earth radius. -/
lemma ground_strict_mono {e₁ e₂ : ℝ} (h1 : ((EARTH_RADIUS : ℚ) : ℝ) ≤ e₁)
    (h12 : e₁ < e₂) : ground_distance_meters e₁ < ground_distance_meters e₂ :=
  mul_lt_mul_of_pos_right (alpha_strict_mono h1 h12) earth_radius_real_pos

/-- `slant_range_meters` is strictly increasing on heights at least the
Earth radius. -/
lemma slant_strict_mono {e₁ e₂ : ℝ} (h1 : ((EARTH_RADIUS : ℚ) : ℝ) ≤ e₁)
    (h12 : e₁ < e₂) : slant_range_meters e₁ < slant_range_meters e₂ := by
  have hR := earth_radius_real_pos
  have he₁ : 0 < e₁ := lt_of_lt_of_le hR h1
  apply Real.sqrt_lt_sqrt
  · nlinarith
  · nlinarith

/-- Effective height dominates the Earth radius whenever the observer
height is positive and the effective subject height is nonnegative. -/
lemma earth_radius_le_eff (o : ℚ) (s : Option ℚ) (m : Bool)
    (ho : 0 < o) (hs : 0 ≤ s.getD 0) :
    EARTH_RADIUS ≤ effectiveObserverHeight ⟨o, s, m⟩ := by
  unfold effectiveObserverHeight
  rcases m with _ | _
  · simp only [Bool.false_eq_true, if_false]
    nlinarith [feet_factor_pos]
  · simp only [if_true]
    linarith

/-- The fixture's effective observer height, exactly:
`30000 * (100000/328084) + 6371009`. -/
lemma fixture_eff_eq : effectiveObserverHeight fixture = 2093226116756 / 328084 := by
  norm_num [fixture, effectiveObserverHeight, CONVERSION_FACTOR_FEET_TO_METERS,
    EARTH_RADIUS]

lemma fixture_eff_real :
    ((effectiveObserverHeight fixture : ℚ) : ℝ) = 2093226116756 / 328084 := by
  rw [fixture_eff_eq]
  push_cast
  ring

/-- The `arccos` argument at the fixture, exactly. -/
lemma fixture_ratio_eq :
    ((EARTH_RADIUS : ℚ) : ℝ) / ((effectiveObserverHeight fixture : ℚ) : ℝ) =
      2090226116756 / 2093226116756 := by
  rw [earth_radius_real, fixture_eff_real]
  norm_num

/-- Two-sided bounds on the central angle at the fixture:
`alpha ∈ (0.05351, 0.05355)` (true value `0.0535450…`). -/
lemma fixture_alpha_bounds :
    0.05351 < alpha ((effectiveObserverHeight fixture : ℚ) : ℝ) ∧
      alpha ((effectiveObserverHeight fixture : ℚ) : ℝ) < 0.05355 := by
  have hα_eq : alpha ((effectiveObserverHeight fixture : ℚ) : ℝ) =
      Real.arccos (2090226116756 / 2093226116756) := by
    unfold alpha
    rw [fixture_ratio_eq]
  set rr : ℝ := (2090226116756 : ℝ) / 2093226116756 with hrr
  have hr_pos : 0 < rr := by rw [hrr]; norm_num
  have hr_lt1 : rr < 1 := by rw [hrr]; norm_num
  have hrlb : (0.99856 : ℝ) < rr := by rw [hrr]; norm_num
  set A : ℝ := Real.arccos rr with hA
  have hαpos : 0 < A := Real.arccos_pos.2 hr_lt1
  have hαhalf : A < Real.pi / 2 := Real.arccos_lt_pi_div_two.2 hr_pos
  have hcos : Real.cos A = rr := Real.cos_arccos (by rw [hrr]; norm_num) hr_lt1.le
  have hsin : Real.sin A = Real.sqrt (1 - rr ^ 2) := Real.sin_arccos rr
  have hsin_lb : (0.05351 : ℝ) < Real.sin A := by
    rw [hsin]
    refine (Real.lt_sqrt (by norm_num)).2 ?_
    rw [hrr]
    norm_num
  have hsin_ub : Real.sin A < 0.0535196 := by
    rw [hsin]
    refine (Real.sqrt_lt' (by norm_num)).2 ?_
    rw [hrr]
    norm_num
  have hlow : (0.05351 : ℝ) < A := lt_trans hsin_lb (Real.sin_lt hαpos)
  have htan : A < Real.tan A := Real.lt_tan hαpos hαhalf
  have htan_eq : Real.tan A = Real.sin A / Real.cos A := Real.tan_eq_sin_div_cos A
  have hα1 : A < 0.0536 := by
    have hdiv : Real.sin A / Real.cos A < 0.0536 := by
      rw [hcos, div_lt_iff₀ hr_pos]
      nlinarith
    calc A < Real.tan A := htan
      _ = Real.sin A / Real.cos A := htan_eq
      _ < 0.0536 := hdiv
  have hα_le1 : |A| ≤ 1 := abs_le.2 ⟨by linarith, by linarith⟩
  have hb := Real.sin_bound hα_le1
  rw [abs_of_nonneg hαpos.le] at hb
  have hb' : A ≤ Real.sin A + A ^ 3 / 6 + A ^ 4 * (5 / 96) := by
    have := (abs_le.1 hb).1
    linarith
  have hα3 : A ^ 3 < (0.0536 : ℝ) ^ 3 := pow_lt_pow_left₀ hα1 hαpos.le (by norm_num)
  have hα4 : A ^ 4 < (0.0536 : ℝ) ^ 4 := pow_lt_pow_left₀ hα1 hαpos.le (by norm_num)
  have hup : A < 0.05355 := by nlinarith
  rw [hα_eq]
  exact ⟨hlow, hup⟩

/-- Two-sided bounds on the slant range at the fixture:
`slant ∈ (341400, 341500)` (true value `341462.4…`). -/
lemma fixture_slant_bounds :
    341400 < slant_range_meters ((effectiveObserverHeight fixture : ℚ) : ℝ) ∧
      slant_range_meters ((effectiveObserverHeight fixture : ℚ) : ℝ) < 341500 := by
  unfold slant_range_meters
  rw [fixture_eff_real, earth_radius_real]
  constructor
  · refine (Real.lt_sqrt (by norm_num)).2 ?_
    norm_num
  · refine (Real.sqrt_lt' (by norm_num)).2 ?_
    norm_num

/-- Two-sided bounds on the ground distance at the fixture:
`ground ∈ (340900, 341200)` (true value `341136.0…`). -/
lemma fixture_ground_bounds :
    340900 < ground_distance_meters ((effectiveObserverHeight fixture : ℚ) : ℝ) ∧
      ground_distance_meters ((effectiveObserverHeight fixture : ℚ) : ℝ) < 341200 := by
  have hα := fixture_alpha_bounds
  unfold ground_distance_meters
  rw [earth_radius_real]
  constructor <;> nlinarith [hα.1, hα.2]

end Helpers

/-- C2: validation is a pure boundary predicate.  Observer height
`h ≤ 0` fails with the observer error carrying `h`; for `h > 0` the
observer check passes and a supplied subject height obeys the same law
(failure carries the subject value); an absent subject always passes
and is treated as exactly `0` by the unit normalizer. -/
theorem validate_boundary (a : Args) :
    (a.observer ≤ 0 → validate a = .error (.observer a.observer)) ∧
    (0 < a.observer → a.subject = none → validate a = .ok ()) ∧
    (∀ s, 0 < a.observer → a.subject = some s → s ≤ 0 →
      validate a = .error (.subject s)) ∧
    (∀ s, 0 < a.observer → a.subject = some s → 0 < s → validate a = .ok ()) ∧
    (∀ o m, effectiveObserverHeight ⟨o, none, m⟩ =
      effectiveObserverHeight ⟨o, some 0, m⟩) := by
  refine ⟨?_, ?_, ?_, ?_, ?_⟩
  · intro h
    simp only [validate, if_pos h]
  · intro ho hn
    simp only [validate, if_neg (not_le.2 ho), hn]
  · intro s ho hs hsv
    simp only [validate, if_neg (not_le.2 ho), hs, if_pos hsv]
  · intro s ho hs hsv
    simp only [validate, if_neg (not_le.2 ho), hs, if_neg (not_le.2 hsv)]
  · intro o m
    simp [effectiveObserverHeight]

/-- Witness for C2 at a concrete input. -/
theorem validate_boundary_witness : validate ⟨2, some 3, false⟩ = .ok () :=
  (validate_boundary ⟨2, some 3, false⟩).2.2.2.1 3 (by decide) rfl (by decide)

/-- C3: on a validation failure `main` exits with code 1, writes exactly
one human-readable line (the rendered error) to stderr, prints nothing
to stdout, and the geometric computation's result appears nowhere in
the outcome; on successful validation it exits 0 with the computed
record printed. -/
theorem error_path_contract (a : Args) :
    (∀ e, validate a = .error e →
      main a = ⟨1, none, [renderError e]⟩) ∧
    (validate a = .ok () → main a = ⟨0, some (compute a), []⟩) := by
  constructor
  · intro e he
    simp only [main, run, he]
  · intro h
    simp only [main, run, h]

/-- Witness for C3 at a concrete input (the spec's own error scenario,
observer = 0). -/
theorem error_path_contract_witness :
    main ⟨0, none, false⟩ = ⟨1, none, [renderError (.observer 0)]⟩ :=
  (error_path_contract ⟨0, none, false⟩).1 (.observer 0) rfl

/-- C4: for every validated input the unit normalizer computes exactly
the spec's formula: heights summed (absent subject is 0), multiplied by
`1 / 3.28084` unless metric, plus Earth radius `6371009`. -/
theorem normalizer_spec (a : Args) (h : validate a = .ok ()) :
    effectiveObserverHeight a = effectiveHeightSpec a.observer a.subject a.metric := by
  unfold effectiveObserverHeight effectiveHeightSpec
    CONVERSION_FACTOR_FEET_TO_METERS EARTH_RADIUS
  rfl

/-- Witness for C4 at a concrete input. -/
theorem normalizer_spec_witness :
    effectiveObserverHeight ⟨1, none, false⟩ = effectiveHeightSpec 1 none false :=
  normalizer_spec ⟨1, none, false⟩ rfl

/-- C5: the geometry solver computes exactly the spec's closed-form
expressions `arccos(6371009 / e)`, `sqrt(e^2 - 6371009^2)` and
`alpha * 6371009`, as pure functions of the effective height. -/
theorem solver_spec (e : ℝ) :
    alpha e = alphaSpec e ∧ slant_range_meters e = slantSpec e ∧
    ground_distance_meters e = groundSpec e := by
  refine ⟨?_, ?_, ?_⟩
  · unfold alpha alphaSpec
    rw [earth_radius_real]
  · unfold slant_range_meters slantSpec
    rw [earth_radius_real]
    congr 1
    ring
  · unfold ground_distance_meters groundSpec alpha alphaSpec
    rw [earth_radius_real]

/-- C6: every validated input yields an effective height of at least
the Earth radius, so the `arccos` argument lies in `[0, 1]`, the `sqrt`
argument is nonnegative (no NaN can arise in the real-valued model),
and the slant range is nonnegative. -/
theorem domain_safety (a : Args) (h : validate a = .ok ()) :
    EARTH_RADIUS ≤ effectiveObserverHeight a ∧
    (0 : ℝ) ≤ ((EARTH_RADIUS : ℚ) : ℝ) / ((effectiveObserverHeight a : ℚ) : ℝ) ∧
    ((EARTH_RADIUS : ℚ) : ℝ) / ((effectiveObserverHeight a : ℚ) : ℝ) ≤ 1 ∧
    (0 : ℝ) ≤ ((effectiveObserverHeight a : ℚ) : ℝ) * ((effectiveObserverHeight a : ℚ) : ℝ) -
      ((EARTH_RADIUS : ℚ) : ℝ) * ((EARTH_RADIUS : ℚ) : ℝ) ∧
    0 ≤ slant_range_meters ((effectiveObserverHeight a : ℚ) : ℝ) := by
  rcases (validate_ok_iff a).1 h with ⟨ho, -⟩
  have hq : EARTH_RADIUS ≤ effectiveObserverHeight a :=
    earth_radius_le_eff a.observer a.subject a.metric ho (subject_getD_nonneg a h)
  have hr : ((EARTH_RADIUS : ℚ) : ℝ) ≤ ((effectiveObserverHeight a : ℚ) : ℝ) := by
    exact_mod_cast hq
  have hpos := earth_radius_real_pos
  have he : (0 : ℝ) < ((effectiveObserverHeight a : ℚ) : ℝ) := lt_of_lt_of_le hpos hr
  refine ⟨hq, by positivity, (div_le_one he).2 hr, by nlinarith, Real.sqrt_nonneg _⟩

/-- Witness for C6 at a concrete input. -/
theorem domain_safety_witness :
    EARTH_RADIUS ≤ effectiveObserverHeight ⟨1, none, false⟩ ∧
    (0 : ℝ) ≤ ((EARTH_RADIUS : ℚ) : ℝ) /
      ((effectiveObserverHeight ⟨1, none, false⟩ : ℚ) : ℝ) ∧
    ((EARTH_RADIUS : ℚ) : ℝ) /
      ((effectiveObserverHeight ⟨1, none, false⟩ : ℚ) : ℝ) ≤ 1 ∧
    (0 : ℝ) ≤ ((effectiveObserverHeight ⟨1, none, false⟩ : ℚ) : ℝ) *
      ((effectiveObserverHeight ⟨1, none, false⟩ : ℚ) : ℝ) -
      ((EARTH_RADIUS : ℚ) : ℝ) * ((EARTH_RADIUS : ℚ) : ℝ) ∧
    0 ≤ slant_range_meters ((effectiveObserverHeight ⟨1, none, false⟩ : ℚ) : ℝ) :=
  domain_safety ⟨1, none, false⟩ rfl

/-- C7: with subject height and unit mode fixed (subject valid, i.e.
effective subject height nonnegative), both computed distances are
strictly increasing in the observer height. -/
theorem monotonicity (s : Option ℚ) (m : Bool) (h₁ h₂ : ℚ)
    (h0 : 0 < h₁) (hlt : h₁ < h₂) (hs : 0 ≤ s.getD 0) :
    ground_distance_meters ((effectiveObserverHeight ⟨h₁, s, m⟩ : ℚ) : ℝ) <
      ground_distance_meters ((effectiveObserverHeight ⟨h₂, s, m⟩ : ℚ) : ℝ) ∧
    slant_range_meters ((effectiveObserverHeight ⟨h₁, s, m⟩ : ℚ) : ℝ) <
      slant_range_meters ((effectiveObserverHeight ⟨h₂, s, m⟩ : ℚ) : ℝ) := by
  have hq : EARTH_RADIUS ≤ effectiveObserverHeight ⟨h₁, s, m⟩ :=
    earth_radius_le_eff h₁ s m h0 hs
  have hqlt : effectiveObserverHeight ⟨h₁, s, m⟩ < effectiveObserverHeight ⟨h₂, s, m⟩ :=
    eff_strict_mono s m hlt
  have hr : ((EARTH_RADIUS : ℚ) : ℝ) ≤ ((effectiveObserverHeight ⟨h₁, s, m⟩ : ℚ) : ℝ) := by
    exact_mod_cast hq
  have h12 : ((effectiveObserverHeight ⟨h₁, s, m⟩ : ℚ) : ℝ) <
      ((effectiveObserverHeight ⟨h₂, s, m⟩ : ℚ) : ℝ) := by
    exact_mod_cast hqlt
  exact ⟨ground_strict_mono hr h12, slant_strict_mono hr h12⟩

/-- Witness for C7 at concrete inputs. -/
theorem monotonicity_witness :
    ground_distance_meters ((effectiveObserverHeight ⟨1, none, false⟩ : ℚ) : ℝ) <
      ground_distance_meters ((effectiveObserverHeight ⟨2, none, false⟩ : ℚ) : ℝ) ∧
    slant_range_meters ((effectiveObserverHeight ⟨1, none, false⟩ : ℚ) : ℝ) <
      slant_range_meters ((effectiveObserverHeight ⟨2, none, false⟩ : ℚ) : ℝ) :=
  monotonicity none false 1 2 (by decide) (by decide) (by decide)

/-- C8: observer 100 in default (feet) mode and observer
`100 * (1 / 3.28084)` in metric mode produce identical computed
records; since the inputs and constants are exactly-representable
decimals, agreement is exact, hence well within the claimed `1e-6`
relative tolerance (stated for the two solver outputs). -/
theorem unit_equivalence :
    compute ⟨100, none, false⟩ = compute ⟨100 * (1 / 3.28084), none, true⟩ ∧
    |(compute ⟨100, none, false⟩).ground_m -
      (compute ⟨100 * (1 / 3.28084), none, true⟩).ground_m| ≤
      (1 / 1000000) * |(compute ⟨100 * (1 / 3.28084), none, true⟩).ground_m| ∧
    |(compute ⟨100, none, false⟩).slant_m -
      (compute ⟨100 * (1 / 3.28084), none, true⟩).slant_m| ≤
      (1 / 1000000) * |(compute ⟨100 * (1 / 3.28084), none, true⟩).slant_m| := by
  have he : effectiveObserverHeight ⟨100, none, false⟩ =
      effectiveObserverHeight ⟨100 * (1 / 3.28084), none, true⟩ := by
    simp only [effectiveObserverHeight, CONVERSION_FACTOR_FEET_TO_METERS]
    norm_num
  have hc : compute ⟨100, none, false⟩ = compute ⟨100 * (1 / 3.28084), none, true⟩ := by
    unfold compute
    rw [he]
  refine ⟨hc, ?_, ?_⟩ <;> rw [hc, sub_self, abs_zero] <;> positivity

/-- C10: swapping the (strictly positive) observer and subject heights
leaves the effective height, the computed record, the `run` result and
the whole process outcome unchanged — every stage after validation
depends only on the sum of the two heights. -/
theorem swap_symmetry (o s : ℚ) (m : Bool) (ho : 0 < o) (hs : 0 < s) :
    effectiveObserverHeight ⟨o, some s, m⟩ = effectiveObserverHeight ⟨s, some o, m⟩ ∧
    compute ⟨o, some s, m⟩ = compute ⟨s, some o, m⟩ ∧
    run ⟨o, some s, m⟩ = run ⟨s, some o, m⟩ ∧
    main ⟨o, some s, m⟩ = main ⟨s, some o, m⟩ := by
  have he : effectiveObserverHeight ⟨o, some s, m⟩ =
      effectiveObserverHeight ⟨s, some o, m⟩ := by
    unfold effectiveObserverHeight
    rcases m with _ | _
    · simp only [Bool.false_eq_true, if_false, Option.getD_some]
      ring
    · simp only [if_true, Option.getD_some]
      ring
  have hc : compute ⟨o, some s, m⟩ = compute ⟨s, some o, m⟩ := by
    unfold compute
    rw [he]
  have hv₁ : validate ⟨o, some s, m⟩ = .ok () :=
    (validate_ok_iff _).2 ⟨ho, fun t ht => by cases ht; exact hs⟩
  have hv₂ : validate ⟨s, some o, m⟩ = .ok () :=
    (validate_ok_iff _).2 ⟨hs, fun t ht => by cases ht; exact ho⟩
  have hr : run ⟨o, some s, m⟩ = run ⟨s, some o, m⟩ := by
    simp only [run, hv₁, hv₂, hc]
  exact ⟨he, hc, hr, by simp only [main, hr]⟩

/-- Witness for C10 at concrete inputs. -/
theorem swap_symmetry_witness :
    effectiveObserverHeight ⟨1, some 2, false⟩ = effectiveObserverHeight ⟨2, some 1, false⟩ ∧
    compute ⟨1, some 2, false⟩ = compute ⟨2, some 1, false⟩ ∧
    run ⟨1, some 2, false⟩ = run ⟨2, some 1, false⟩ ∧
    main ⟨1, some 2, false⟩ = main ⟨2, some 1, false⟩ :=
  swap_symmetry 1 2 false (by decide) (by decide)

/-- C1 fails on the code: an explicit subject argument of `0` does not
behave like an omitted subject.  `Args::validate` rejects
`subject <= 0.0`, so the run with an explicit subject of 0 exits with
code 1 and prints nothing to stdout, while the observer-only run
succeeds — the two invocations do not both succeed. -/
theorem zero_subject_counterexample :
    main ⟨1, some 0, false⟩ = ⟨1, none, [renderError (.subject 0)]⟩ ∧
    main ⟨1, none, false⟩ = ⟨0, some (compute ⟨1, none, false⟩), []⟩ := by
  have h0 : validate ⟨1, some 0, false⟩ = .error (.subject 0) := rfl
  have h1 : validate ⟨1, none, false⟩ = .ok () := rfl
  exact ⟨by simp only [main, run, h0], by simp only [main, run, h1]⟩

/-- C1 amended: for a valid observer height, the observer-only
invocation succeeds and its computed results coincide with the
computation performed on an explicit subject height of 0 (the pipeline
treats an absent subject as exactly 0); the invocation with an
explicit subject argument of 0, however, is rejected by validation. -/
theorem zero_subject_default_amended (o : ℚ) (m : Bool) (ho : 0 < o) :
    run ⟨o, none, m⟩ = .ok (compute ⟨o, none, m⟩) ∧
    compute ⟨o, none, m⟩ = compute ⟨o, some 0, m⟩ ∧
    run ⟨o, some 0, m⟩ = .error (.subject 0) := by
  have hv : validate ⟨o, none, m⟩ = .ok () :=
    (validate_ok_iff _).2 ⟨ho, by simp⟩
  have hv0 : validate ⟨o, some 0, m⟩ = .error (.subject 0) := by
    simp only [validate, if_neg (not_le.2 ho)]
    rfl
  have he : effectiveObserverHeight ⟨o, none, m⟩ =
      effectiveObserverHeight ⟨o, some 0, m⟩ := by
    simp [effectiveObserverHeight]
  exact ⟨by simp only [run, hv], by unfold compute; rw [he], by simp only [run, hv0]⟩

/-- Witness for the amended C1 at a concrete input. -/
theorem zero_subject_default_amended_witness :
    run ⟨1, none, false⟩ = .ok (compute ⟨1, none, false⟩) ∧
    compute ⟨1, none, false⟩ = compute ⟨1, some 0, false⟩ ∧
    run ⟨1, some 0, false⟩ = .error (.subject 0) :=
  zero_subject_default_amended 1 false (by decide)

/-- C9 fails on the code: at observer 30000 (feet, imperial default,
subject omitted) the computed slant range lies in `(341400, 341500)` m —
more than 84 km (over 19% relative error) away from the claimed
`≈ 426300` m, far outside any approximate reading (the spec's own
tolerance example is `1e-6` relative).  The claimed effective height
`≈ 6380155.9` m is also wrong: the exact value `6380152.9997…` differs
from it by more than 2.8 m, so its digits do not match a direct
recomputation. -/
theorem fixture_counterexample :
    (84000 : ℝ) <
      |slant_range_meters ((effectiveObserverHeight fixture : ℚ) : ℝ) - 426300| ∧
    slant_range_meters ((effectiveObserverHeight fixture : ℚ) : ℝ) < 341500 ∧
    (2.8 : ℚ) < 6380155.9 - effectiveObserverHeight fixture := by
  have hs := fixture_slant_bounds
  refine ⟨?_, hs.2, ?_⟩
  · rw [lt_abs]
    right
    linarith [hs.2]
  · rw [fixture_eff_eq]
    norm_num

/-- C9 amended: at observer 30000 (feet, imperial default, subject
omitted) the effective height is `≈ 6380153.0` m (exactly
`2093226116756/328084`), `alpha ≈ 0.05354` rad (in
`(0.05351, 0.05355)`, not `0.05358`), the ground distance is
`≈ 341100` m — still `≈ 341` km and `≈ 212` mi — and the slant range
is `≈ 341500` m (in `(341400, 341500)`), not `426300` m. -/
theorem fixture_amended :
    (6380152.9 < effectiveObserverHeight fixture ∧
      effectiveObserverHeight fixture < 6380153.1) ∧
    (0.05351 < alpha ((effectiveObserverHeight fixture : ℚ) : ℝ) ∧
      alpha ((effectiveObserverHeight fixture : ℚ) : ℝ) < 0.05355) ∧
    (340900 < ground_distance_meters ((effectiveObserverHeight fixture : ℚ) : ℝ) ∧
      ground_distance_meters ((effectiveObserverHeight fixture : ℚ) : ℝ) < 341200) ∧
    (340.9 < ground_distance_km ((effectiveObserverHeight fixture : ℚ) : ℝ) ∧
      ground_distance_km ((effectiveObserverHeight fixture : ℚ) : ℝ) < 341.2) ∧
    (211.8 < ground_distance_miles ((effectiveObserverHeight fixture : ℚ) : ℝ) ∧
      ground_distance_miles ((effectiveObserverHeight fixture : ℚ) : ℝ) < 212.1) ∧
    (341400 < slant_range_meters ((effectiveObserverHeight fixture : ℚ) : ℝ) ∧
      slant_range_meters ((effectiveObserverHeight fixture : ℚ) : ℝ) < 341500) := by
  have hg := fixture_ground_bounds
  have hkm : ((CONVERSION_FACTOR_METERS_TO_KM : ℚ) : ℝ) = 1 / 1000 := by
    norm_num [CONVERSION_FACTOR_METERS_TO_KM]
  have hmi : ((CONVERSION_FACTOR_METERS_TO_MILES : ℚ) : ℝ) = 62137 / 100000000 := by
    norm_num [CONVERSION_FACTOR_METERS_TO_MILES]
  refine ⟨⟨?_, ?_⟩, fixture_alpha_bounds, hg, ⟨?_, ?_⟩, ⟨?_, ?_⟩, fixture_slant_bounds⟩
  · rw [fixture_eff_eq]
    norm_num
  · rw [fixture_eff_eq]
    norm_num
  · unfold ground_distance_km
    rw [hkm]
    linarith [hg.1]
  · unfold ground_distance_km
    rw [hkm]
    linarith [hg.2]
  · unfold ground_distance_miles
    rw [hmi]
    nlinarith [hg.1]
  · unfold ground_distance_miles
    rw [hmi]
    nlinarith [hg.2]

end VisualRange
